import Mathlib

/-!
Shallow embedding of the AP bulk-import pipeline (supplier-list validation and
device-claim phases) together with theorems about its validation, naming,
sequence-allocation and claim-precondition behaviour.

Python dictionaries are embedded as association lists where an insertion
prepends the new binding, so that lookup (first match) sees the newest value.
Strings are treated as their character sequences; the Python regular
expressions used by the source are over ASCII character classes and are
embedded as the corresponding explicit character-list predicates.
-/

/-- Lowercasing of a string, character by character (ASCII, matching the
source's use of Python str.lower on network names and flags). -/
def lowerStr (s : String) : String := String.mk (s.data.map Char.toLower)

/-- csv starts-with test on the character sequences of the two strings. -/
def strStarts (s pre : String) : Bool := pre.data.isPrefixOf s.data

/-- ASCII whitespace recognizer for the embedded str.strip. -/
def isSpaceChar (c : Char) : Bool := c == ' ' || c == '\t' || c == '\n' || c == '\r'

/-- Python str.strip on a character list. -/
def trimChars (l : List Char) : List Char :=
  ((l.dropWhile isSpaceChar).reverse.dropWhile isSpaceChar).reverse

/-- Python str.strip on a string. -/
def trimStr (s : String) : String := String.mk (trimChars s.data)

/-- Python str.split on the single character delimiter, over a character
list: split "a-b" = ["a","b"], split "" = [""], split "-" = ["",""]. -/
def splitDash : List Char → List (List Char)
  | [] => [[]]
  | c :: rest =>
    let r := splitDash rest
    if c = '-' then [] :: r
    else
      match r with
      | h :: t => (c :: h) :: t
      | [] => [[c]]

/-- Association-list lookup with a default, embedding Python dict.get. -/
def lookupD {α : Type} (m : List (String × α)) (k : String) (d : α) : α :=
  match m.lookup k with
  | some v => v
  | none => d

/-- A device as returned by the remote network-device listing: its name and
its (possibly empty) address field. -/
structure Device where
  name : String
  address : String
  deriving Repr, DecidableEq

/-- A network from the directory snapshot. -/
structure NetworkRec where
  orgId : String
  orgName : String
  netId : String
  netName : String
  deriving Repr, DecidableEq

/-- Inventory information for a serial number already known to the remote
directory; the network id is absent (None) when the device is unassigned. -/
structure InvData where
  orgId : String
  orgName : String
  networkId : Option String
  deriving Repr, DecidableEq

/-- One parsed manifest row: shipment date, raw network-name text and the
serial number (after the quote stripping done at parse time). -/
structure ManifestRow where
  shipDate : String
  netRaw : String
  serial : String
  deriving Repr, DecidableEq

/-- The output record built for every manifest row (the res dictionary of
the source, with its fixed field set). -/
structure ValidationRecord where
  status : String
  alreadyAdded : String
  shipmentDate : String
  inputNetworkName : String
  serialNumber : String
  orgId : String
  orgName : String
  networkId : String
  fullNetworkName : String
  connectivity : String
  connectivityTag : String
  diagnosticTag : String
  address : String
  apName : String
  messages : String
  deriving Repr, DecidableEq

/-- Which of the three output lists a record is appended to. -/
inductive Disposition where
  | ignored
  | error
  | validated
  deriving Repr, DecidableEq, BEq

/-- The two run-scoped caches of the validation phase: the per-network usage
counter (SequenceCache) and the per-network address cache (AddressCache). -/
structure AllocState where
  usage : List (String × Nat)
  addr : List (String × String)
  deriving Repr, DecidableEq

/-- The run environment: the directory snapshot (inventory map, network
list, tag maps) and the remote device-list reader; the reader returns none
when the remote read fails (the bare except of the source). -/
structure Env where
  inventory_map : List (String × InvData)
  network_list : List NetworkRec
  connectivity_map : List (String × String)
  diagnostic_map : List (String × String)
  remote : String → Option (List Device)

/-- The three output record lists of the validation phase. -/
structure PipeResult where
  ignored : List ValidationRecord
  error : List ValidationRecord
  validated : List ValidationRecord
  deriving Repr, DecidableEq

/-- Python truthiness of an optional string (None and the empty string are
falsy). -/
def truthyOpt : Option String → Bool
  | none => false
  | some s => !(s == "")

/-- validate_and_extract_prefix of the source: split the canonical network
name on the dash, require at least four components, check the first three
against the anchored character-class patterns (two letters; three
alphanumerics; one or more alphanumerics) and rejoin them on success. -/
def validate_and_extract_pfx (full_net_name : String) : Option String × Option String :=
  match splitDash full_net_name.data with
  | cc :: reg :: pid :: _ :: _ =>
    if !(cc.length == 2 && cc.all Char.isAlpha) then
      (none, some ("Invalid Country Code: " ++ String.mk cc))
    else if !(reg.length == 3 && reg.all Char.isAlphanum) then
      (none, some ("Invalid Region Code: " ++ String.mk reg))
    else if !(!pid.isEmpty && pid.all Char.isAlphanum) then
      (none, some ("Invalid Partner ID: " ++ String.mk pid))
    else
      (some (String.mk cc ++ "-" ++ String.mk reg ++ "-" ++ String.mk pid), none)
  | _ => (none, some "Format invalid. Expected: CC-REG-PID-Company Name")

/-- The anchored device-name pattern of get_next_ap_number: the name is
exactly the escaped naming stem, then "-AP", then two decimal digits, then
"-N"; returns the two-digit value on a match. -/
def matchAPName (pfx : String) (name : String) : Option Nat :=
  let stem := (pfx ++ "-AP").data
  let nm := name.data
  if nm.take stem.length = stem then
    match nm.drop stem.length with
    | [d1, d2, x, y] =>
      if d1.isDigit && d2.isDigit && x == '-' && y == 'N' then
        some ((d1.toNat - 48) * 10 + (d2.toNat - 48))
      else none
    | _ => none
  else none

/-- The single pass of get_next_ap_number over the fetched device list:
collect the maximum matched progressive number (0 when none match) and the
first usable address (a stripped, non-empty field differing
case-insensitively from the word none), keeping an address already found. -/
def scanDevices (pfx : String) (found0 : String) (devices : List Device) : Nat × String :=
  devices.foldl
    (fun acc d =>
      let n := match matchAPName pfx d.name with
        | some k => max acc.1 k
        | none => acc.1
      let fa :=
        if acc.2 == "" then
          let a := trimStr d.address
          if a ≠ "" ∧ lowerStr a ≠ "none" then a else acc.2
        else acc.2
      (n, fa))
    (0, found0)

/-- get_next_ap_number of the source. On a call whose cached usage counter
for the network is 0 (the first call of the run for that network) it
performs the one remote read; on success the starting point becomes the
maximum matched number and the discovered address is cached (even when
empty); on failure the starting point stays 0 and the address cache is left
untouched. It then returns the incremented number and the address, storing
the number back into the usage cache. -/
def get_next_ap_number (remote : String → Option (List Device))
    (network_id : String) (pfx : String) (st : AllocState) :
    (Nat × String) × AllocState :=
  let start_num := lookupD st.usage network_id 0
  let found_address := lookupD st.addr network_id ""
  let fetched : Nat × String × List (String × String) :=
    if start_num = 0 then
      match remote network_id with
      | some devices =>
        let sc := scanDevices pfx found_address devices
        (sc.1, sc.2, (network_id, sc.2) :: st.addr)
      | none => (0, found_address, st.addr)
    else (start_num, found_address, st.addr)
  let next_num := fetched.1 + 1
  ((next_num, fetched.2.1), ⟨(network_id, next_num) :: st.usage, fetched.2.2⟩)

/-- find_network_match of the source: the case-insensitive exact matches
win when there is exactly one of them, otherwise fall back to the
case-insensitive starts-with matches. -/
def find_network_match (csv_name : String) (network_list : List NetworkRec) :
    List NetworkRec :=
  let csv_name_clean := lowerStr csv_name
  let exact_matches := network_list.filter (fun n => lowerStr n.netName == csv_name_clean)
  if exact_matches.length = 1 then exact_matches
  else network_list.filter (fun n => strStarts (lowerStr n.netName) csv_name_clean)

/-- Python str(n).zfill(2). -/
def zfill2 (n : Nat) : String :=
  let s := toString n
  if s.length < 2 then "0" ++ s else s

/-- The initial res dictionary built for every manifest row. -/
def blankRecord (row : ManifestRow) : ValidationRecord :=
  { status := "bad", alreadyAdded := "false", shipmentDate := row.shipDate,
    inputNetworkName := row.netRaw, serialNumber := row.serial,
    orgId := "", orgName := "", networkId := "", fullNetworkName := "",
    connectivity := "no", connectivityTag := "", diagnosticTag := "",
    address := "", apName := "", messages := "" }

/-- The already-in-inventory branch of the per-row loop: a serial found in
the inventory map is marked already added; with a truthy network id it goes
to the ignored list, otherwise to the error list. -/
def inventoryBranch (env : Env) (row : ManifestRow) (inv : InvData) :
    ValidationRecord × Disposition :=
  let res0 := { blankRecord row with
    alreadyAdded := "true", orgId := inv.orgId, orgName := inv.orgName }
  if truthyOpt inv.networkId then
    let nid := inv.networkId.getD ""
    let netInfo := env.network_list.find? (fun n => n.netId == nid)
    ({ res0 with
        status := "good", networkId := nid,
        fullNetworkName := match netInfo with
          | some n => n.netName
          | none => "Unknown",
        messages := "device already successfully added" }, Disposition.ignored)
  else
    ({ res0 with messages := "serial in inventory but not assigned to a network." },
      Disposition.error)

/-- The tail of the matched branch, after allocation: compose the AP name,
reject on the length ceiling, then on the progressive-number ceiling, and
otherwise produce the validated record with the optional connectivity tag. -/
def finishRow (env : Env) (row : ManifestRow) (m : NetworkRec)
    (ap_pfx diag_tag : String) (alloc : (Nat × String) × AllocState) :
    (ValidationRecord × Disposition) × AllocState :=
  let prog_num := alloc.1.1
  let ap_name := ap_pfx ++ "-AP" ++ zfill2 prog_num ++ "-N"
  if 50 ≤ ap_name.length then
    (({ blankRecord row with
        messages := "AP Name too long (" ++ toString ap_name.length ++ " chars)" },
      Disposition.error), alloc.2)
  else if 99 < prog_num then
    (({ blankRecord row with messages := "Progressive number exceeds 99" },
      Disposition.error), alloc.2)
  else
    let conn := lookupD env.connectivity_map m.netId ""
    let base := { blankRecord row with
      status := "good", orgId := m.orgId, orgName := m.orgName,
      networkId := m.netId, fullNetworkName := m.netName,
      apName := ap_name, diagnosticTag := diag_tag, address := alloc.1.2 }
    let res := if conn == "" then base
      else { base with connectivity := "yes", connectivityTag := conn }
    ((res, Disposition.validated), alloc.2)

/-- The unique-network-match branch of the per-row loop: prefix validation,
then the mandatory diagnostic-tag check, then allocation and finishRow. -/
def matchedBranch (env : Env) (st : AllocState) (row : ManifestRow)
    (m : NetworkRec) : (ValidationRecord × Disposition) × AllocState :=
  match validate_and_extract_pfx m.netName with
  | (some ap_pfx, _) =>
    let diag_tag := lookupD env.diagnostic_map m.netId ""
    if diag_tag == "" then
      (({ blankRecord row with
          messages := "Network missing mandatory 'diagnostic' tag",
          fullNetworkName := m.netName }, Disposition.error), st)
    else
      finishRow env row m ap_pfx diag_tag
        (get_next_ap_number env.remote m.netId ap_pfx st)
  | (none, err) =>
    (({ blankRecord row with
        messages := err.getD "", fullNetworkName := m.netName },
      Disposition.error), st)

/-- One iteration of the per-row loop of main: inventory check first, then
the network match dispatch. -/
def process_row (env : Env) (st : AllocState) (row : ManifestRow) :
    (ValidationRecord × Disposition) × AllocState :=
  match env.inventory_map.lookup row.serial with
  | some inv => (inventoryBranch env row inv, st)
  | none =>
    match find_network_match row.netRaw env.network_list with
    | [m] => matchedBranch env st row m
    | ms =>
      (({ blankRecord row with
          messages := if 1 < ms.length then "potential network name overlap"
            else "network not found" }, Disposition.error), st)

/-- Append a classified record to the output list selected by its
disposition, as the three append calls of the source loop do. -/
def appendRec (pr : PipeResult) (p : ValidationRecord × Disposition) : PipeResult :=
  match p.2 with
  | Disposition.ignored => { pr with ignored := pr.ignored ++ [p.1] }
  | Disposition.error => { pr with error := pr.error ++ [p.1] }
  | Disposition.validated => { pr with validated := pr.validated ++ [p.1] }

/-- One loop iteration over the accumulated output lists and caches. -/
def stepPipeline (env : Env) (acc : PipeResult × AllocState) (row : ManifestRow) :
    PipeResult × AllocState :=
  let r := process_row env acc.2 row
  (appendRec acc.1 r.1, r.2)

/-- The whole validation loop of main: empty output lists and empty caches,
then one stepPipeline per manifest row in order. -/
def validateAll (env : Env) (rows : List ManifestRow) : PipeResult × AllocState :=
  List.foldl (stepPipeline env) (⟨[], [], []⟩, ⟨[], []⟩) rows

/-- The per-row trace of the run: the classified record of every row in
manifest order, threading the caches exactly as the loop does. -/
def runTrace (env : Env) : List ManifestRow → AllocState →
    List (ValidationRecord × Disposition) × AllocState
  | [], st => ([], st)
  | r :: rs, st =>
    let p := process_row env st r
    let t := runTrace env rs p.2
    (p.1 :: t.1, t.2)

/-- The records of a trace that carry the given disposition, in order. -/
def dispFilter (d : Disposition) (t : List (ValidationRecord × Disposition)) :
    List ValidationRecord :=
  (t.filter (fun p => decide (p.2 = d))).map Prod.fst

/-- k successive allocator calls for one network, collecting the issued
numbers in order. -/
def allocRun (remote : String → Option (List Device)) (net pfx : String) :
    Nat → AllocState → List Nat × AllocState
  | 0, st => ([], st)
  | k + 1, st =>
    let r := get_next_ap_number remote net pfx st
    let rest := allocRun remote net pfx k r.2
    (r.1.1 :: rest.1, rest.2)

/-- The starting point the allocator discovers for a network on the first
call of a run: the maximum matched device number on a successful read, 0 on
a failed read. -/
def startNum (remote : String → Option (List Device)) (net pfx : String) : Nat :=
  match remote net with
  | some devices => (scanDevices pfx "" devices).1
  | none => 0

/-- The data with which a manifest row reaches the allocation step, when it
does: the uniquely matched network, the validated naming stem and the
diagnostic tag; none when the row is settled before allocation. -/
def allocData (env : Env) (row : ManifestRow) : Option (NetworkRec × String × String) :=
  match env.inventory_map.lookup row.serial with
  | some _ => none
  | none =>
    match find_network_match row.netRaw env.network_list with
    | [m] =>
      match validate_and_extract_pfx m.netName with
      | (some p, _) =>
        let diag := lookupD env.diagnostic_map m.netId ""
        if diag == "" then none else some (m, p, diag)
      | (none, _) => none
    | _ => none

/-- One row of the claim phase's input file (the validated-upload columns it
reads). -/
structure ClaimRow where
  status : String
  alreadyAdded : String
  serial : String
  netId : String
  netName : String
  orgId : String
  orgName : String
  connectivity : String
  connectivityTag : String
  diagnosticTag : String
  address : String
  apName : String
  deriving Repr, DecidableEq

/-- The response of one atomic bulk-claim call: the accepted serials and
the serials reported in the per-serial error list. -/
structure ClaimResponse where
  serials : List String
  errors : List String
  deriving Repr, DecidableEq

/-- The remote side of the claim phase: the bulk-claim outcome per network
(none embeds an APIError on the whole call) and the per-device update
outcome. -/
structure ClaimEnv where
  claimResult : String → List String → Option ClaimResponse
  updateOk : String → Bool

/-- A remote mutation issued by the claim phase, in issue order. -/
inductive RemoteAction where
  | claim (netId : String) (serials : List String)
  | update (serial : String) (name : String) (tags : List String) (addr : Option String)
  deriving Repr, DecidableEq

/-- Validation 1 of the claim phase: pandas duplicated(keep=False).any(),
true when some serial occurs on two or more rows. -/
def hasDuplicateSerials (rows : List ClaimRow) : Bool :=
  rows.any (fun r => 2 ≤ (rows.filter (fun r2 => r2.serial == r.serial)).length)

/-- Validation 2 of the claim phase: some row whose lowercased status is
not good or whose lowercased already-added flag is not false. -/
def hasInvalidRows (rows : List ClaimRow) : Bool :=
  rows.any (fun r => !(lowerStr r.status == "good") || !(lowerStr r.alreadyAdded == "false"))

/-- The tag list sent with a device update: the fixed NEW-AP marker, then
the diagnostic tag and (when connectivity is yes) the connectivity tag,
each only when it is a usable non-empty non-nan string. -/
def tagsFor (r : ClaimRow) : List String :=
  let t0 := ["NEW-AP"]
  let t1 := if !(lowerStr r.diagnosticTag == "nan") && !(trimStr r.diagnosticTag == "") then
      t0 ++ [r.diagnosticTag]
    else t0
  if lowerStr r.connectivity == "yes" then
    if !(lowerStr r.connectivityTag == "nan") && !(trimStr r.connectivityTag == "") then
      t1 ++ [r.connectivityTag]
    else t1
  else t1

/-- The address sent with a device update, when the recorded address is a
usable non-empty non-nan string. -/
def addressFor (r : ClaimRow) : Option String :=
  if !(lowerStr r.address == "nan") && !(trimStr r.address == "") then
    some (trimStr r.address)
  else none

/-- The grouping keys of the claim loop, one per distinct
(network id, network name, org id, org name), in order of first appearance. -/
def groupKeys (rows : List ClaimRow) : List (String × String × String × String) :=
  (rows.map (fun r => (r.netId, r.netName, r.orgId, r.orgName))).eraseDups

/-- The remote mutations issued for one network group: the bulk claim, then
(unless the whole claim call failed) one update per successfully claimed
serial, built from that serial's row. -/
def processGroup (cenv : ClaimEnv) (rows : List ClaimRow)
    (key : String × String × String × String) : List RemoteAction :=
  let group := rows.filter (fun r => (r.netId, r.netName, r.orgId, r.orgName) == key)
  let serials := group.map (fun r => r.serial)
  RemoteAction.claim key.1 serials ::
    match cenv.claimResult key.1 serials with
    | none => []
    | some resp =>
      resp.serials.filterMap (fun s =>
        match group.find? (fun r => r.serial == s) with
        | some r => some (RemoteAction.update s r.apName (tagsFor r) (addressFor r))
        | none => none)

/-- The claim phase after loading its input: when either batch precondition
fails, no remote call is issued and the input file is renamed with the
error marker; otherwise the groups are processed in order and the clean
marker is used. -/
def claimPhase (cenv : ClaimEnv) (rows : List ClaimRow) :
    List RemoteAction × String :=
  if hasDuplicateSerials rows || hasInvalidRows rows then
    ([], "error_claimed_")
  else
    (((groupKeys rows).map (processGroup cenv rows)).flatten, "claimed_")

/-! ## Helper lemmas about the caches and the allocator -/

theorem lookupD_cons_self {α : Type} (l : List (String × α)) (k : String) (v d : α) :
    lookupD ((k, v) :: l) k d = v := by
  simp [lookupD, List.lookup]

theorem lookupD_cons_ne {α : Type} (l : List (String × α)) (k k2 : String) (v d : α)
    (h : k2 ≠ k) : lookupD ((k, v) :: l) k2 d = lookupD l k2 d := by
  simp [lookupD, List.lookup, beq_eq_false_iff_ne.mpr h]

/-- A call whose cached counter is already positive consults nothing remote:
it returns the incremented counter and the cached address. -/
theorem get_next_cached (remote : String → Option (List Device)) (net pfx : String)
    (st : AllocState) (m : Nat) (hm : lookupD st.usage net 0 = m) (hpos : 0 < m) :
    get_next_ap_number remote net pfx st =
      ((m + 1, lookupD st.addr net ""), ⟨(net, m + 1) :: st.usage, st.addr⟩) := by
  simp [get_next_ap_number, hm, Nat.pos_iff_ne_zero.mp hpos]

/-- The allocator state always records the returned number for the network. -/
theorem get_next_usage (remote : String → Option (List Device)) (net pfx : String)
    (st : AllocState) :
    ((get_next_ap_number remote net pfx st).2).usage =
      (net, (get_next_ap_number remote net pfx st).1.1) :: st.usage := rfl

/-- The returned number strictly exceeds the cached counter value. -/
theorem get_next_gt (remote : String → Option (List Device)) (net pfx : String)
    (st : AllocState) :
    lookupD st.usage net 0 < (get_next_ap_number remote net pfx st).1.1 := by
  by_cases h : lookupD st.usage net 0 = 0
  · rw [h]
    cases hrem : remote net with
    | none => simp [get_next_ap_number, h, hrem]
    | some ds => simp [get_next_ap_number, h, hrem]
  · simp [get_next_ap_number, h]

/-- Once the counter is positive, k further calls issue exactly the k
consecutive successors, ending with the counter advanced by k. -/
theorem allocRun_cached (remote : String → Option (List Device)) (net pfx : String) :
    ∀ (k : Nat) (st : AllocState) (m : Nat),
      lookupD st.usage net 0 = m → 0 < m →
      (allocRun remote net pfx k st).1 = List.range' (m + 1) k := by
  intro k
  induction k with
  | zero => intro st m _ _; rfl
  | succ k ih =>
    intro st m hm hpos
    have hc := get_next_cached remote net pfx st m hm hpos
    have hrec := ih ⟨(net, m + 1) :: st.usage, st.addr⟩ (m + 1)
      (lookupD_cons_self _ _ _ _) (Nat.succ_pos m)
    simp [allocRun, hc, List.range', hrec]

/-- The very first call of a run returns the discovered starting point plus
one, and stores that value in the usage cache. -/
theorem get_next_first (remote : String → Option (List Device)) (net pfx : String) :
    (get_next_ap_number remote net pfx ⟨[], []⟩).1.1 = startNum remote net pfx + 1 ∧
    ((get_next_ap_number remote net pfx ⟨[], []⟩).2).usage =
      [(net, startNum remote net pfx + 1)] := by
  cases hrem : remote net with
  | none => simp [get_next_ap_number, startNum, hrem, lookupD]
  | some ds => simp [get_next_ap_number, startNum, hrem, lookupD]

/-- Once the counter for the network is positive, the remote reader is
never consulted again for it: any two readers give identical runs. -/
theorem allocRun_remote_irrel (net pfx : String) :
    ∀ (k : Nat) (st : AllocState), 0 < lookupD st.usage net 0 →
      ∀ (r2 r3 : String → Option (List Device)),
        allocRun r2 net pfx k st = allocRun r3 net pfx k st := by
  intro k
  induction k with
  | zero => intro st _ r2 r3; rfl
  | succ k ih =>
    intro st hpos r2 r3
    have hc2 := get_next_cached r2 net pfx st _ rfl hpos
    have hc3 := get_next_cached r3 net pfx st _ rfl hpos
    have hrec := ih ⟨(net, lookupD st.usage net 0 + 1) :: st.usage, st.addr⟩
      (by rw [lookupD_cons_self]; omega) r2 r3
    simp [allocRun, hc2, hc3, hrec]

/-! ## C2 — sequence allocation across one run -/

/-- A remote network that already holds a device matching the pattern with
number 05, so that the discovered starting point is 5. -/
def c2remote : String → Option (List Device) :=
  fun _ => some [{ name := "P-AP05-N", address := "" }]

/-- C2 counterexample: with run-fresh caches but a pre-existing matching
device in the network, the single allocating call of the run issues 6, not
the 1 that the sequence 1..N demands. -/
theorem C2_counterexample :
    (allocRun c2remote "N1" "P" 1 ⟨[], []⟩).1 = [6] ∧ (6 : Nat) ≠ 1 := by
  constructor
  · rfl
  · decide

/-- C2 (amended): across one run, the N allocating calls for a network
issue exactly the consecutive numbers s+1, .., s+N, where s is the starting
point discovered on the first call (the maximum pattern-matched device
number of the remote read, 0 when none match or the read fails); hence the
numbers strictly increase by exactly one per call and are never repeated,
the usage-cache value for the network strictly increases with every call,
and when s = 0 the issued numbers are exactly 1..N. -/
theorem C2_alloc_monotone (remote : String → Option (List Device))
    (net pfx : String) (k : Nat) :
    (allocRun remote net pfx k ⟨[], []⟩).1 =
      List.range' (startNum remote net pfx + 1) k ∧
    (allocRun remote net pfx k ⟨[], []⟩).1.Nodup ∧
    (∀ st : AllocState, lookupD st.usage net 0 <
      lookupD ((get_next_ap_number remote net pfx st).2).usage net 0) ∧
    (startNum remote net pfx = 0 →
      (allocRun remote net pfx k ⟨[], []⟩).1 = List.range' 1 k) := by
  have hmain : (allocRun remote net pfx k ⟨[], []⟩).1 =
      List.range' (startNum remote net pfx + 1) k := by
    cases k with
    | zero => rfl
    | succ k =>
      have hf := get_next_first remote net pfx
      have hrec := allocRun_cached remote net pfx k
        (get_next_ap_number remote net pfx ⟨[], []⟩).2 (startNum remote net pfx + 1)
        (by rw [hf.2, lookupD_cons_self]) (Nat.succ_pos _)
      simp [allocRun, hrec, hf.1, List.range']
  refine ⟨hmain, ?_, ?_, ?_⟩
  · rw [hmain]; exact List.nodup_range' _ _
  · intro st
    rw [get_next_usage, lookupD_cons_self]
    exact get_next_gt remote net pfx st
  · intro h0; rw [hmain, h0]

/-! ## C9 — silent degradation when the remote read fails -/

/-- C9: when the remote read fails on the first allocation for a network
(usage counter still 0, no cached address), the call returns number 1 with
the empty address, the address cache stays untouched (so still empty for
the network), the usage cache records 1, and every later call for that
network is independent of the remote reader — no further read can affect
the run. -/
theorem C9_remote_failure_degrades (remote : String → Option (List Device))
    (net pfx : String) (st : AllocState) (hfail : remote net = none)
    (hu : lookupD st.usage net 0 = 0) (ha : lookupD st.addr net "" = "") :
    get_next_ap_number remote net pfx st =
      ((1, ""), ⟨(net, 1) :: st.usage, st.addr⟩) ∧
    lookupD ((get_next_ap_number remote net pfx st).2).addr net "" = "" ∧
    ∀ (r2 r3 : String → Option (List Device)) (k : Nat),
      allocRun r2 net pfx k (get_next_ap_number remote net pfx st).2 =
        allocRun r3 net pfx k (get_next_ap_number remote net pfx st).2 := by
  have hcall : get_next_ap_number remote net pfx st =
      ((1, ""), ⟨(net, 1) :: st.usage, st.addr⟩) := by
    simp [get_next_ap_number, hu, ha, hfail]
  refine ⟨hcall, ?_, ?_⟩
  · rw [hcall]; exact ha
  · intro r2 r3 k
    exact allocRun_remote_irrel net pfx k _
      (by rw [hcall, lookupD_cons_self]; omega) r2 r3

/-- Concrete instance for C9: a reader that always fails, fresh caches. -/
theorem C9_witness :
    get_next_ap_number (fun _ => none) "n1" "P" ⟨[], []⟩ =
      ((1, ""), ⟨[("n1", 1)], []⟩) ∧
    allocRun (fun _ => some [⟨"P-AP42-N", "x"⟩]) "n1" "P" 2
        (get_next_ap_number (fun _ => none) "n1" "P" ⟨[], []⟩).2 =
      allocRun (fun _ => none) "n1" "P" 2
        (get_next_ap_number (fun _ => none) "n1" "P" ⟨[], []⟩).2 := by
  have h := C9_remote_failure_degrades (fun _ => none) "n1" "P" ⟨[], []⟩ rfl rfl rfl
  exact ⟨h.1, h.2.2 (fun _ => some [⟨"P-AP42-N", "x"⟩]) (fun _ => none) 2⟩

/-! ## C4 — the two-tier network matcher -/

/-- C4: when exactly one network matches the candidate case-insensitively
on the full name, that network alone is returned, whatever else would
prefix-match; in every other case the result is exactly the networks whose
lowercased names start with the lowercased candidate. The matcher is a
total function into lists, so it never raises and may return zero, one or
several networks. -/
theorem C4_two_tier (c : String) (L : List NetworkRec) :
    ((L.filter (fun n => lowerStr n.netName == lowerStr c)).length = 1 →
      ∀ u, u ∈ L → lowerStr u.netName = lowerStr c →
        find_network_match c L = [u]) ∧
    ((L.filter (fun n => lowerStr n.netName == lowerStr c)).length ≠ 1 →
      ∀ x, x ∈ find_network_match c L ↔
        x ∈ L ∧ strStarts (lowerStr x.netName) (lowerStr c) = true) := by
  constructor
  · intro h1 u hu hpred
    obtain ⟨a, ha⟩ := List.length_eq_one.mp h1
    have hmem : u ∈ L.filter (fun n => lowerStr n.netName == lowerStr c) := by
      rw [List.mem_filter]
      exact ⟨hu, by simp [hpred]⟩
    rw [ha] at hmem
    simp only [List.mem_singleton] at hmem
    subst hmem
    simp [find_network_match, h1, ha]
  · intro h1 x
    simp [find_network_match, h1, List.mem_filter]

/-- The Store12 networks of the worked example. -/
def store12exact : NetworkRec := ⟨"o0", "O", "n0", "Store12"⟩

/-- East branch network of the worked example. -/
def store12east : NetworkRec := ⟨"o1", "O", "n1", "Store12-East"⟩

/-- West branch network of the worked example. -/
def store12west : NetworkRec := ⟨"o2", "O", "n2", "Store12-West"⟩

/-- Concrete instance for C4: with only the two branch networks, candidate
Store12 prefix-matches both; with the exact network present as well, only
it is returned. -/
theorem C4_witness :
    (store12east ∈ find_network_match "Store12" [store12east, store12west] ↔
      store12east ∈ [store12east, store12west] ∧
        strStarts (lowerStr store12east.netName) (lowerStr "Store12") = true) ∧
    (store12west ∈ find_network_match "Store12" [store12east, store12west] ↔
      store12west ∈ [store12east, store12west] ∧
        strStarts (lowerStr store12west.netName) (lowerStr "Store12") = true) ∧
    find_network_match "Store12" [store12exact, store12east, store12west] =
      [store12exact] := by
  refine ⟨?_, ?_, ?_⟩
  · exact (C4_two_tier "Store12" [store12east, store12west]).2 (by decide) store12east
  · exact (C4_two_tier "Store12" [store12east, store12west]).2 (by decide) store12west
  · exact (C4_two_tier "Store12" [store12exact, store12east, store12west]).1
      (by decide) store12exact (by decide) (by decide)

/-! ## C5 — the naming-prefix validator -/

/-- C5: the validator splits the canonical name on the dash; with at least
four components it succeeds — returning the first three rejoined and no
reason — exactly when the first is two letters, the second three
alphanumerics and the third a non-empty alphanumeric string; with fewer
than four components it fails; and in every case it returns a reason
precisely when it returns no stem (it never raises). -/
theorem C5_pfx_validator (s : String) :
    (∀ cc reg pid r rest, splitDash s.data = cc :: reg :: pid :: r :: rest →
      (((validate_and_extract_pfx s).1 =
          some (String.mk cc ++ "-" ++ String.mk reg ++ "-" ++ String.mk pid) ∧
        (validate_and_extract_pfx s).2 = none) ↔
        (cc.length = 2 ∧ cc.all Char.isAlpha = true ∧
         reg.length = 3 ∧ reg.all Char.isAlphanum = true ∧
         pid ≠ [] ∧ pid.all Char.isAlphanum = true))) ∧
    ((splitDash s.data).length < 4 →
      (validate_and_extract_pfx s).1 = none ∧
      (validate_and_extract_pfx s).2 ≠ none) ∧
    ((validate_and_extract_pfx s).1 = none ↔ (validate_and_extract_pfx s).2 ≠ none) := by
  refine ⟨?_, ?_, ?_⟩
  · intro cc reg pid r rest hsplit
    simp only [validate_and_extract_pfx, hsplit]
    split_ifs with hA hB hC <;>
      simp_all [-List.all_eq_true, -List.all_eq_false] <;> aesop
  · intro hlen
    rcases hsp : splitDash s.data with _ | ⟨cc, _ | ⟨reg, _ | ⟨pid, _ | ⟨r, rest⟩⟩⟩⟩ <;>
      simp_all [validate_and_extract_pfx]
    omega
  · rcases hsp : splitDash s.data with _ | ⟨cc, _ | ⟨reg, _ | ⟨pid, _ | ⟨r, rest⟩⟩⟩⟩ <;>
      simp [validate_and_extract_pfx, hsp]
    split_ifs <;> simp

/-- Concrete instance for C5: the worked examples of the contract. -/
theorem C5_witness :
    ((validate_and_extract_pfx "US-ABC-P1-Acme").1 = some "US-ABC-P1" ∧
      (validate_and_extract_pfx "US-ABC-P1-Acme").2 = none) ∧
    (validate_and_extract_pfx "US-AB-P1-Acme").1 = none ∧
    (validate_and_extract_pfx "USA-ABC-P1-Acme").1 = none ∧
    (validate_and_extract_pfx "US-ABC").1 = none := by
  refine ⟨?_, ?_, ?_, ?_⟩
  · exact ((C5_pfx_validator "US-ABC-P1-Acme").1
      (['U', 'S']) (['A', 'B', 'C']) (['P', '1']) (['A', 'c', 'm', 'e']) []
      (by decide)).mpr (by decide)
  · exact ((C5_pfx_validator "US-AB-P1-Acme").2.2).mpr (by decide)
  · exact ((C5_pfx_validator "USA-ABC-P1-Acme").2.2).mpr (by decide)
  · exact ((C5_pfx_validator "US-ABC").2.1 (by decide)).1

/-! ## C6 — serials already present in the inventory snapshot -/

/-- C6: a row whose serial is in the inventory snapshot never touches the
caches; with a truthy (present, non-empty) network id it is always
dispositioned to the ignored list as already added, carrying the owning
organization and network identity and the fixed message; with an absent or
empty network id it goes to the error list instead. -/
theorem C6_inventory_disposition (env : Env) (st : AllocState) (row : ManifestRow)
    (inv : InvData) (h : env.inventory_map.lookup row.serial = some inv) :
    (process_row env st row).2 = st ∧
    (truthyOpt inv.networkId = true →
      (process_row env st row).1.2 = Disposition.ignored ∧
      (process_row env st row).1.1.messages = "device already successfully added" ∧
      (process_row env st row).1.1.alreadyAdded = "true" ∧
      (process_row env st row).1.1.orgId = inv.orgId ∧
      (process_row env st row).1.1.orgName = inv.orgName ∧
      (process_row env st row).1.1.networkId = inv.networkId.getD "") ∧
    (truthyOpt inv.networkId = false →
      (process_row env st row).1.2 = Disposition.error ∧
      (process_row env st row).1.1.messages =
        "serial in inventory but not assigned to a network.") := by
  cases htr : truthyOpt inv.networkId <;>
    simp [process_row, h, inventoryBranch, blankRecord, htr]

/-- Inventory entry of the worked examples: assigned to network n1. -/
def demoInvAssigned : InvData := ⟨"o1", "Org", some "n1"⟩

/-- Inventory entry of the worked examples: in inventory, no network. -/
def demoInvUnassigned : InvData := ⟨"o1", "Org", none⟩

/-- Directory snapshot of the worked examples. -/
def demoEnv : Env :=
  ⟨[("S9", demoInvAssigned), ("S8", demoInvUnassigned)],
    [⟨"o1", "Org", "n1", "US-ABC-P1-Acme"⟩], [],
    [("n1", "Diagnostic")], fun _ => some []⟩

/-- Concrete instance for C6: serial S9 (assigned) is ignored with the
already-added message; serial S8 (unassigned) is rejected. -/
theorem C6_witness :
    ((process_row demoEnv ⟨[], []⟩ ⟨"d", "w", "S9"⟩).1.2 = Disposition.ignored ∧
      (process_row demoEnv ⟨[], []⟩ ⟨"d", "w", "S9"⟩).1.1.messages =
        "device already successfully added") ∧
    (process_row demoEnv ⟨[], []⟩ ⟨"d", "w", "S8"⟩).1.2 = Disposition.error := by
  have h9 := C6_inventory_disposition demoEnv ⟨[], []⟩ ⟨"d", "w", "S9"⟩
    demoInvAssigned (by decide)
  have h8 := C6_inventory_disposition demoEnv ⟨[], []⟩ ⟨"d", "w", "S8"⟩
    demoInvUnassigned (by decide)
  exact ⟨⟨(h9.2.1 (by decide)).1, (h9.2.1 (by decide)).2.1⟩, (h8.2.2 (by decide)).1⟩

/-! ## C10 — in-inventory rows do not depend on the network-name text -/

/-- C10: for a serial found in the inventory snapshot, the produced record
does not depend on the row's raw network-name text: two rows agreeing on
serial and shipment date yield the same disposition, identical caches, and
identical records except for the echoed input network-name field; in
particular neither matching nor allocation ever runs. -/
theorem C10_inventory_noninterference (env : Env) (st : AllocState)
    (row1 row2 : ManifestRow) (inv : InvData)
    (hser : row1.serial = row2.serial) (hdate : row1.shipDate = row2.shipDate)
    (h : env.inventory_map.lookup row1.serial = some inv) :
    (process_row env st row1).1.2 = (process_row env st row2).1.2 ∧
    (process_row env st row1).2 = st ∧
    (process_row env st row2).2 = st ∧
    (process_row env st row1).1.1 =
      { (process_row env st row2).1.1 with inputNetworkName := row1.netRaw } := by
  have h2 : env.inventory_map.lookup row2.serial = some inv := by rw [← hser]; exact h
  cases htr : truthyOpt inv.networkId <;>
    simp [process_row, h, h2, inventoryBranch, blankRecord, htr, hdate, hser]

/-- Concrete instance for C10: two rows for the in-inventory serial S9 with
different network-name texts produce the same record up to the echoed
input field. -/
theorem C10_witness :
    (process_row demoEnv ⟨[], []⟩ ⟨"d", "Alpha", "S9"⟩).1.2 =
      (process_row demoEnv ⟨[], []⟩ ⟨"d", "Beta", "S9"⟩).1.2 ∧
    (process_row demoEnv ⟨[], []⟩ ⟨"d", "Alpha", "S9"⟩).2 = (⟨[], []⟩ : AllocState) ∧
    (process_row demoEnv ⟨[], []⟩ ⟨"d", "Alpha", "S9"⟩).1.1 =
      { (process_row demoEnv ⟨[], []⟩ ⟨"d", "Beta", "S9"⟩).1.1 with
          inputNetworkName := "Alpha" } := by
  have h := C10_inventory_noninterference demoEnv ⟨[], []⟩ ⟨"d", "Alpha", "S9"⟩
    ⟨"d", "Beta", "S9"⟩ demoInvAssigned rfl rfl (by decide)
  exact ⟨h.1, h.2.1, h.2.2.2⟩

/-! ## C3 — name composition and the length and overflow gates -/

/-- C3 (amended): for a row reaching name composition the final check is:
the disposition is validated exactly when the composed name (the stem, AP,
the number zero-filled to width 2, and the N suffix) is shorter than 50
characters and the number is at most 99; a validated record carries the
composed name; a name of 50 characters or more is rejected with the
message carrying the actual length — and this check precedes the overflow
check, so a number above 99 yields the overflow message only when the
composed name is under 50 characters. -/
theorem C3_naming_gate (env : Env) (row : ManifestRow) (m : NetworkRec)
    (ap_pfx diag_tag a : String) (n : Nat) (st2 : AllocState) :
    ((finishRow env row m ap_pfx diag_tag ((n, a), st2)).1.2 = Disposition.validated ↔
      ((ap_pfx ++ "-AP" ++ zfill2 n ++ "-N").length < 50 ∧ n ≤ 99)) ∧
    ((finishRow env row m ap_pfx diag_tag ((n, a), st2)).1.2 = Disposition.validated →
      (finishRow env row m ap_pfx diag_tag ((n, a), st2)).1.1.apName =
        ap_pfx ++ "-AP" ++ zfill2 n ++ "-N") ∧
    (50 ≤ (ap_pfx ++ "-AP" ++ zfill2 n ++ "-N").length →
      (finishRow env row m ap_pfx diag_tag ((n, a), st2)).1.2 = Disposition.error ∧
      (finishRow env row m ap_pfx diag_tag ((n, a), st2)).1.1.messages =
        "AP Name too long (" ++ toString (ap_pfx ++ "-AP" ++ zfill2 n ++ "-N").length ++
          " chars)") ∧
    ((ap_pfx ++ "-AP" ++ zfill2 n ++ "-N").length < 50 → 99 < n →
      (finishRow env row m ap_pfx diag_tag ((n, a), st2)).1.2 = Disposition.error ∧
      (finishRow env row m ap_pfx diag_tag ((n, a), st2)).1.1.messages =
        "Progressive number exceeds 99") := by
  by_cases h50 : 50 ≤ (ap_pfx ++ "-AP" ++ zfill2 n ++ "-N").length
  · simp only [String.length_append] at h50
    simp [finishRow, h50]
  · simp only [String.length_append] at h50
    by_cases h99 : 99 < n
    · simp [finishRow, h50, h99]
    · by_cases hc : lookupD env.connectivity_map m.netId "" = "" <;>
        simp [finishRow, h50, h99, hc, blankRecord] <;> omega

/-- A 42-character naming stem: a valid prefix whose partner id is 35
characters, long enough that number 100 composes a 50-character name. -/
def longPfx : String := "US-ABC-" ++ String.mk (List.replicate 35 'X')

/-- Canonical network name built on the long stem. -/
def longNetName : String := longPfx ++ "-Acme"

/-- Directory snapshot for the C3 counterexample: one network with the
long name, a diagnostic tag, and a remote device list already holding the
pattern-matched number 99 so the next allocation returns 100. -/
def longEnv : Env :=
  ⟨[], [⟨"o1", "Org", "n1", longNetName⟩], [],
    [("n1", "Diagnostic")], fun _ => some [⟨longPfx ++ "-AP99-N", ""⟩]⟩

/-- C3 counterexample: this row reaches composition with allocated number
100, yet its rejection message is the name-length message, not
"Progressive number exceeds 99" as the claim demands for number 100 —
the length check fires first. -/
theorem C3_counterexample :
    (get_next_ap_number longEnv.remote "n1" longPfx ⟨[], []⟩).1.1 = 100 ∧
    (process_row longEnv ⟨[], []⟩ ⟨"", longNetName, "S1"⟩).1.2 = Disposition.error ∧
    (process_row longEnv ⟨[], []⟩ ⟨"", longNetName, "S1"⟩).1.1.messages =
      "AP Name too long (50 chars)" ∧
    "AP Name too long (50 chars)" ≠ "Progressive number exceeds 99" := by
  refine ⟨by decide, by decide, by decide, by decide⟩

/-- Concrete instance for C3: number 100 with a short stem is rejected with
the overflow message; number 99 with a short stem is validated and carries
the composed name. -/
theorem C3_witness :
    ((finishRow demoEnv ⟨"", "w", "S1"⟩ ⟨"o1", "Org", "n1", "US-ABC-P1-Acme"⟩
        "US-ABC-P1" "Diagnostic" ((100, ""), ⟨[], []⟩)).1.2 = Disposition.error ∧
      (finishRow demoEnv ⟨"", "w", "S1"⟩ ⟨"o1", "Org", "n1", "US-ABC-P1-Acme"⟩
        "US-ABC-P1" "Diagnostic" ((100, ""), ⟨[], []⟩)).1.1.messages =
        "Progressive number exceeds 99") ∧
    (finishRow demoEnv ⟨"", "w", "S1"⟩ ⟨"o1", "Org", "n1", "US-ABC-P1-Acme"⟩
      "US-ABC-P1" "Diagnostic" ((99, ""), ⟨[], []⟩)).1.2 = Disposition.validated ∧
    (finishRow demoEnv ⟨"", "w", "S1"⟩ ⟨"o1", "Org", "n1", "US-ABC-P1-Acme"⟩
      "US-ABC-P1" "Diagnostic" ((99, ""), ⟨[], []⟩)).1.1.apName =
      "US-ABC-P1-AP99-N" := by
  have h100 := C3_naming_gate demoEnv ⟨"", "w", "S1"⟩
    ⟨"o1", "Org", "n1", "US-ABC-P1-Acme"⟩ "US-ABC-P1" "Diagnostic" "" 100 ⟨[], []⟩
  have h99 := C3_naming_gate demoEnv ⟨"", "w", "S1"⟩
    ⟨"o1", "Org", "n1", "US-ABC-P1-Acme"⟩ "US-ABC-P1" "Diagnostic" "" 99 ⟨[], []⟩
  have hval : (finishRow demoEnv ⟨"", "w", "S1"⟩ ⟨"o1", "Org", "n1", "US-ABC-P1-Acme"⟩
      "US-ABC-P1" "Diagnostic" ((99, ""), ⟨[], []⟩)).1.2 = Disposition.validated :=
    h99.1.mpr (by decide)
  exact ⟨h100.2.2.2 (by decide) (by decide), hval, by
    have := h99.2.1 hval
    rw [this]
    rfl⟩

/-! ## C7 — claim-phase batch preconditions -/

/-- C7: when the claim input holds a duplicated serial, or any row whose
status is not good or whose already-added flag is not false, the whole
batch aborts before any remote call: the issued action list is empty and
the input file is renamed with the error marker, not the clean marker. -/
theorem C7_batch_preconditions (cenv : ClaimEnv) (rows : List ClaimRow)
    (h : hasDuplicateSerials rows = true ∨ hasInvalidRows rows = true) :
    (claimPhase cenv rows).1 = [] ∧
    (claimPhase cenv rows).2 = "error_claimed_" ∧
    (claimPhase cenv rows).2 ≠ "claimed_" := by
  have hb : (hasDuplicateSerials rows || hasInvalidRows rows) = true := by
    rcases h with h | h <;> simp [h]
  refine ⟨?_, ?_, ?_⟩ <;> simp [claimPhase, hb]

/-- A well-formed validated claim row with the given serial. -/
def mkClaimRow (s : String) : ClaimRow :=
  ⟨"good", "false", s, "n1", "Net", "o1", "Org", "no", "", "Diag", "", "AP1"⟩

/-- A claim environment that accepts everything. -/
def acceptingClaimEnv : ClaimEnv :=
  ⟨fun _ serials => some ⟨serials, []⟩, fun _ => true⟩

/-- Concrete instance for C7: a file with serial X twice is aborted with no
action and the error marker; a row with a bad status likewise. -/
theorem C7_witness :
    (hasDuplicateSerials [mkClaimRow "X", mkClaimRow "X"] = true ∧
      (claimPhase acceptingClaimEnv [mkClaimRow "X", mkClaimRow "X"]).1 = [] ∧
      (claimPhase acceptingClaimEnv [mkClaimRow "X", mkClaimRow "X"]).2 =
        "error_claimed_") ∧
    (hasInvalidRows [{ mkClaimRow "Y" with status := "bad" }] = true ∧
      (claimPhase acceptingClaimEnv [{ mkClaimRow "Y" with status := "bad" }]).1 = []) := by
  refine ⟨⟨by decide, ?_, ?_⟩, by decide, ?_⟩
  · exact (C7_batch_preconditions acceptingClaimEnv
      [mkClaimRow "X", mkClaimRow "X"] (Or.inl (by decide))).1
  · exact (C7_batch_preconditions acceptingClaimEnv
      [mkClaimRow "X", mkClaimRow "X"] (Or.inl (by decide))).2.1
  · exact (C7_batch_preconditions acceptingClaimEnv
      [{ mkClaimRow "Y" with status := "bad" }] (Or.inr (by decide))).1

/-! ## C8 — check ordering and its frame effects on the caches -/

theorem finishRow_state (env : Env) (row : ManifestRow) (m : NetworkRec)
    (ap_pfx diag_tag : String) (alloc : (Nat × String) × AllocState) :
    (finishRow env row m ap_pfx diag_tag alloc).2 = alloc.2 := by
  rcases alloc with ⟨⟨n, a⟩, st2⟩
  by_cases h50 : 50 ≤ (ap_pfx ++ "-AP" ++ zfill2 n ++ "-N").length <;>
    simp only [String.length_append] at h50
  · simp [finishRow, h50]
  · by_cases h99 : 99 < n
    · simp [finishRow, h50, h99]
    · by_cases hc : lookupD env.connectivity_map m.netId "" = "" <;>
        simp [finishRow, h50, h99, hc]

/-- C8: a row settled before allocation (in inventory, no unique match, bad
prefix, or missing diagnostic tag — exactly when allocData is none) leaves
both caches untouched; a row that reaches allocation updates the caches
exactly as the allocator does, records its issued number in the usage
cache whatever its final disposition, the number strictly exceeds the
previous cache value, and the next allocation for the same network returns
exactly one more — the consumed number is never returned. -/
theorem C8_check_order (env : Env) (st : AllocState) (row : ManifestRow) :
    (allocData env row = none → (process_row env st row).2 = st) ∧
    (∀ m p d, allocData env row = some (m, p, d) →
      (process_row env st row).2 = (get_next_ap_number env.remote m.netId p st).2 ∧
      lookupD ((process_row env st row).2).usage m.netId 0 =
        (get_next_ap_number env.remote m.netId p st).1.1 ∧
      lookupD st.usage m.netId 0 < (get_next_ap_number env.remote m.netId p st).1.1 ∧
      (get_next_ap_number env.remote m.netId p ((process_row env st row).2)).1.1 =
        (get_next_ap_number env.remote m.netId p st).1.1 + 1) := by
  have hmain : ∀ m p d, allocData env row = some (m, p, d) →
      (process_row env st row).2 = (get_next_ap_number env.remote m.netId p st).2 := by
    intro m p d hsome
    cases hinv : env.inventory_map.lookup row.serial with
    | some inv => simp [allocData, hinv] at hsome
    | none =>
      cases hfm : find_network_match row.netRaw env.network_list with
      | nil => simp [allocData, hinv, hfm] at hsome
      | cons m1 tl =>
        cases tl with
        | cons m2 tl2 => simp [allocData, hinv, hfm] at hsome
        | nil =>
          cases hv : validate_and_extract_pfx m1.netName with
          | mk o1 o2 =>
            cases o1 with
            | none => simp [allocData, hinv, hfm, hv] at hsome
            | some p1 =>
              by_cases hd : lookupD env.diagnostic_map m1.netId "" = ""
              · simp [allocData, hinv, hfm, hv, hd] at hsome
              · simp [allocData, hinv, hfm, hv, hd] at hsome
                obtain ⟨hm, hp, _⟩ := hsome
                subst hm
                subst hp
                simp [process_row, hinv, hfm, matchedBranch, hv, hd, finishRow_state]
  constructor
  · intro hnone
    cases hinv : env.inventory_map.lookup row.serial with
    | some inv => simp [process_row, hinv]
    | none =>
      cases hfm : find_network_match row.netRaw env.network_list with
      | nil => simp [process_row, hinv, hfm]
      | cons m1 tl =>
        cases tl with
        | cons m2 tl2 => simp [process_row, hinv, hfm]
        | nil =>
          cases hv : validate_and_extract_pfx m1.netName with
          | mk o1 o2 =>
            cases o1 with
            | none => simp [process_row, hinv, hfm, matchedBranch, hv]
            | some p1 =>
              by_cases hd : lookupD env.diagnostic_map m1.netId "" = ""
              · simp [process_row, hinv, hfm, matchedBranch, hv, hd]
              · exfalso
                simp [allocData, hinv, hfm, hv, hd] at hnone
  · intro m p d hsome
    have hst := hmain m p d hsome
    refine ⟨hst, ?_, get_next_gt env.remote m.netId p st, ?_⟩
    · rw [hst, get_next_usage, lookupD_cons_self]
    · rw [hst]
      have hpos : 0 < (get_next_ap_number env.remote m.netId p st).1.1 := by
        have := get_next_gt env.remote m.netId p st
        omega
      have hlk : lookupD ((get_next_ap_number env.remote m.netId p st).2).usage m.netId 0 =
          (get_next_ap_number env.remote m.netId p st).1.1 := by
        rw [get_next_usage, lookupD_cons_self]
      have hc := get_next_cached env.remote m.netId p
        (get_next_ap_number env.remote m.netId p st).2
        (get_next_ap_number env.remote m.netId p st).1.1 hlk hpos
      rw [hc]

/-- Concrete instance for C8: an in-inventory row leaves the caches
untouched, while a row reaching allocation advances them so that the next
call for the network issues the successor. -/
theorem C8_witness :
    (process_row demoEnv ⟨[], []⟩ ⟨"d", "nomatch", "S2"⟩).2 = (⟨[], []⟩ : AllocState) ∧
    (process_row demoEnv ⟨[], []⟩ ⟨"d", "US-ABC-P1-Acme", "S1"⟩).2 =
      (get_next_ap_number demoEnv.remote "n1" "US-ABC-P1" ⟨[], []⟩).2 ∧
    (get_next_ap_number demoEnv.remote "n1" "US-ABC-P1"
        ((process_row demoEnv ⟨[], []⟩ ⟨"d", "US-ABC-P1-Acme", "S1"⟩).2)).1.1 =
      (get_next_ap_number demoEnv.remote "n1" "US-ABC-P1" ⟨[], []⟩).1.1 + 1 := by
  have h1 := (C8_check_order demoEnv ⟨[], []⟩ ⟨"d", "nomatch", "S2"⟩).1 (by decide)
  have h2 := (C8_check_order demoEnv ⟨[], []⟩ ⟨"d", "US-ABC-P1-Acme", "S1"⟩).2
    ⟨"o1", "Org", "n1", "US-ABC-P1-Acme"⟩ "US-ABC-P1" "Diagnostic" (by decide)
  exact ⟨h1, h2.1, h2.2.2.2⟩

/-! ## C1 — every row yields exactly one record, and the three lists
partition the manifest -/

theorem runTrace_length (env : Env) :
    ∀ (rows : List ManifestRow) (st : AllocState),
      (runTrace env rows st).1.length = rows.length := by
  intro rows
  induction rows with
  | nil => intro st; rfl
  | cons r rs ih => intro st; simp [runTrace, ih]

theorem dispFilter_cons (d : Disposition) (p : ValidationRecord × Disposition)
    (t : List (ValidationRecord × Disposition)) :
    dispFilter d (p :: t) =
      (if p.2 = d then [p.1] else []) ++ dispFilter d t := by
  by_cases h : p.2 = d <;> simp [dispFilter, List.filter_cons, h]

theorem dispFilter_length (t : List (ValidationRecord × Disposition)) :
    (dispFilter Disposition.ignored t).length + (dispFilter Disposition.error t).length +
      (dispFilter Disposition.validated t).length = t.length := by
  induction t with
  | nil => rfl
  | cons p t ih =>
    rcases p with ⟨rec, d⟩
    cases d <;> simp [dispFilter_cons] <;> omega

theorem pipeline_foldl (env : Env) :
    ∀ (rows : List ManifestRow) (pr : PipeResult) (st : AllocState),
      List.foldl (stepPipeline env) (pr, st) rows =
        ({ ignored := pr.ignored ++ dispFilter Disposition.ignored (runTrace env rows st).1,
           error := pr.error ++ dispFilter Disposition.error (runTrace env rows st).1,
           validated :=
             pr.validated ++ dispFilter Disposition.validated (runTrace env rows st).1 },
         (runTrace env rows st).2) := by
  intro rows
  induction rows with
  | nil => intro pr st; simp [runTrace, dispFilter]
  | cons r rs ih =>
    intro pr st
    rw [List.foldl_cons]
    rcases hp : process_row env st r with ⟨⟨rec, d⟩, st2⟩
    have hstep : stepPipeline env (pr, st) r = (appendRec pr (rec, d), st2) := by
      simp [stepPipeline, hp]
    rw [hstep, ih]
    cases d <;>
      simp [runTrace, hp, appendRec, dispFilter_cons, List.append_assoc]

/-- C1: the loop produces exactly one record per manifest row (the trace
has the manifest's length), each output list is exactly the subsequence of
records carrying its disposition — so no row is dropped and none lands in
two lists — and the three list lengths sum to the number of rows. -/
theorem C1_partition (env : Env) (rows : List ManifestRow) :
    (runTrace env rows ⟨[], []⟩).1.length = rows.length ∧
    (validateAll env rows).1.ignored =
      dispFilter Disposition.ignored (runTrace env rows ⟨[], []⟩).1 ∧
    (validateAll env rows).1.error =
      dispFilter Disposition.error (runTrace env rows ⟨[], []⟩).1 ∧
    (validateAll env rows).1.validated =
      dispFilter Disposition.validated (runTrace env rows ⟨[], []⟩).1 ∧
    (validateAll env rows).1.ignored.length + (validateAll env rows).1.error.length +
      (validateAll env rows).1.validated.length = rows.length := by
  have h := pipeline_foldl env rows ⟨[], [], []⟩ ⟨[], []⟩
  have hlen := runTrace_length env rows ⟨[], []⟩
  have hsum := dispFilter_length (runTrace env rows ⟨[], []⟩).1
  refine ⟨hlen, ?_, ?_, ?_, ?_⟩ <;> simp [validateAll, h]
  omega
